import Mathlib

/-!
Verification of the order/cart core of a Telegram storefront bot
(`src/bot.py`).  The SQLite tables (`products`, `carts`, `orders`,
`order_items`) are embedded as lists of records, and the handler/database
functions of the source are translated into pure state-passing functions
over that embedded database.  Each `conn.commit()` in the source is one
transaction boundary; where a claim is about crash atomicity the sequence
of committed states is made explicit.
-/

namespace ShopBot

/-- Row of the `products` table (src/bot.py `init_db`): id, name, price,
description, photo_file_id, is_active (stored 0/1), created_at. -/
structure Product where
  id : Int
  name : String
  price : Int
  description : String
  photo_file_id : String
  is_active : Int
  created_at : String
deriving Repr, DecidableEq

/-- Row of the `carts` table: PRIMARY KEY (user_id, product_id). -/
structure CartLine where
  user_id : Int
  product_id : Int
  qty : Int
deriving Repr, DecidableEq

/-- Row of the `orders` table. -/
structure Order where
  id : Int
  user_id : Int
  customer_name : String
  phone : String
  address : String
  note : String
  total_amount : Int
  status : String
  payment_method : String
  payment_ref : String
  payment_proof_file_id : String
  created_at : String
deriving Repr, DecidableEq

/-- Row of the `order_items` table. -/
structure OrderItem where
  order_id : Int
  product_id : Int
  name : String
  price : Int
  qty : Int
deriving Repr, DecidableEq

/-- The SQLite database state.  `next_order_id` models the AUTOINCREMENT
counter of the `orders` table (`cur.lastrowid` of the next insert);
SQLite AUTOINCREMENT ids start at 1. -/
structure DB where
  products : List Product
  carts : List CartLine
  orders : List Order
  order_items : List OrderItem
  next_order_id : Int
deriving Repr, DecidableEq

/-- `get_product(pid)`: `SELECT * FROM products WHERE id = ?` then
`fetchone`.  `id` is the PRIMARY KEY, so the first match is the unique
matching row. -/
def get_product (s : DB) (pid : Int) : Option Product :=
  s.products.find? (fun p => p.id == pid)

/-- `cart_add(user_id, pid, qty)`: increments the existing (user, product)
row or inserts a new one. -/
def cart_add (s : DB) (user_id pid qty : Int) : DB :=
  match s.carts.find? (fun c => c.user_id == user_id && c.product_id == pid) with
  | some r =>
      { s with carts := s.carts.map (fun c =>
          if c.user_id == user_id && c.product_id == pid then
            { c with qty := r.qty + qty } else c) }
  | none => { s with carts := s.carts ++ [⟨user_id, pid, qty⟩] }

/-- `cart_remove(user_id, pid)`: `DELETE FROM carts WHERE user_id=? AND
product_id=?`. -/
def cart_remove (s : DB) (user_id pid : Int) : DB :=
  { s with carts := s.carts.filter (fun c => !(c.user_id == user_id && c.product_id == pid)) }

/-- `cart_clear(user_id)`: `DELETE FROM carts WHERE user_id=?`.  One
transaction of its own (separate connection and commit). -/
def cart_clear (s : DB) (user_id : Int) : DB :=
  { s with carts := s.carts.filter (fun c => !(c.user_id == user_id)) }

/-- One result row of the `cart_list` join:
`SELECT c.product_id, c.qty, p.name, p.price`. -/
structure CartRow where
  product_id : Int
  qty : Int
  name : String
  price : Int
deriving Repr, DecidableEq

/-- `cart_list(user_id)`: inner join of the user's cart rows with
`products` on `p.id = c.product_id`, `ORDER BY p.id DESC`.  `products.id`
is the PRIMARY KEY, so the join matches at most the unique product row
(`find?`); rows whose product id has no row in `products` are dropped by
the inner join (`filterMap`). -/
def cart_list (s : DB) (user_id : Int) : List CartRow :=
  List.insertionSort (fun a b => b.product_id ≤ a.product_id)
    ((s.carts.filter (fun c => c.user_id == user_id)).filterMap (fun c =>
      (s.products.find? (fun p => p.id == c.product_id)).map (fun p =>
        { product_id := c.product_id, qty := c.qty, name := p.name, price := p.price })))

/-- `cart_total(user_id)`: `sum(int(it["price"]) * int(it["qty"]) for it in
cart_list(user_id))`. -/
def cart_total (s : DB) (user_id : Int) : Int :=
  ((cart_list s user_id).map (fun it => it.price * it.qty)).sum

/-- First transaction of `create_order_from_cart` (one connection,
committed at src/bot.py:222): inserts the order row with status
WAIT_PAYMENT and one `order_items` row per cart line (frozen name, price,
qty).  Returns the state after this commit together with
(order_id, total); `(0, 0)` when the cart join is empty.  `now` stands
for `now_iso()`. -/
def create_order_txn (s : DB) (user_id : Int)
    (customer_name phone address note now : String) : DB × Int × Int :=
  let items := cart_list s user_id
  if items.isEmpty then (s, 0, 0)
  else
    let total := (items.map (fun it => it.price * it.qty)).sum
    let order_id := s.next_order_id
    let o : Order :=
      { id := order_id, user_id := user_id, customer_name := customer_name,
        phone := phone, address := address, note := note,
        total_amount := total, status := "WAIT_PAYMENT",
        payment_method := "", payment_ref := "", payment_proof_file_id := "",
        created_at := now }
    let its := items.map (fun it =>
      OrderItem.mk order_id it.product_id it.name it.price it.qty)
    ({ s with orders := s.orders ++ [o], order_items := s.order_items ++ its,
              next_order_id := order_id + 1 }, order_id, total)

/-- `create_order_from_cart(user_id, customer_name, phone, address, note)`:
the order+items transaction followed by `cart_clear(user_id)`, which is a
separate second transaction.  Returns (state, order_id, total). -/
def create_order_from_cart (s : DB) (user_id : Int)
    (customer_name phone address note now : String) : DB × Int × Int :=
  if (cart_list s user_id).isEmpty then (s, 0, 0)
  else
    let r := create_order_txn s user_id customer_name phone address note now
    (cart_clear r.1 user_id, r.2.1, r.2.2)

/-- The database states a crashed run of `create_order_from_cart` can
leave behind: before any commit, after the order+items commit
(src/bot.py:222), and after the separate `cart_clear` commit
(src/bot.py:181). -/
def checkout_commit_states (s : DB) (user_id : Int)
    (customer_name phone address note now : String) : List DB :=
  if (cart_list s user_id).isEmpty then [s]
  else
    let mid := (create_order_txn s user_id customer_name phone address note now).1
    [s, mid, cart_clear mid user_id]

/-- `order_get(order_id)`: `SELECT * FROM orders WHERE id = ?`, `fetchone`. -/
def order_get (s : DB) (order_id : Int) : Option Order :=
  s.orders.find? (fun o => o.id == order_id)

/-- `order_items(order_id)`: `SELECT * FROM order_items WHERE order_id=?
ORDER BY rowid DESC` — insertion order reversed. -/
def order_items (s : DB) (order_id : Int) : List OrderItem :=
  (s.order_items.filter (fun it => it.order_id == order_id)).reverse

/-- `order_update_payment(order_id, method, ref, proof_file_id)`:
`UPDATE orders SET payment_method=?, payment_ref=?,
payment_proof_file_id=? WHERE id=?`. -/
def order_update_payment (s : DB) (order_id : Int) (method ref proof_file_id : String) : DB :=
  { s with orders := s.orders.map (fun o =>
      if o.id == order_id then
        { o with payment_method := method, payment_ref := ref,
                 payment_proof_file_id := proof_file_id }
      else o) }

/-- `order_set_status(order_id, status)`: `UPDATE orders SET status=?
WHERE id=?` — an unconditional overwrite, with no check of the current
status. -/
def order_set_status (s : DB) (order_id : Int) (status : String) : DB :=
  { s with orders := s.orders.map (fun o =>
      if o.id == order_id then { o with status := status } else o) }

/-- Outcome of the `admin_order_status` handler: silent return for a
non-admin, the "Order not found" reply, or success. -/
inductive StatusResult
  | notAdmin
  | orderNotFound
  | ok
deriving Repr, DecidableEq

/-- `admin_order_status` (src/bot.py:952-978): checks `is_admin`
(membership in ADMIN_IDS), checks the order exists, then calls
`order_set_status` with the requested status string and notifies the
customer (notification is external and affects no table). -/
def admin_order_status (s : DB) (admin_ids : List Int) (actor : Int)
    (status : String) (order_id : Int) : DB × StatusResult :=
  if !(admin_ids.contains actor) then (s, .notAdmin)
  else
    match order_get s order_id with
    | none => (s, .orderNotFound)
    | some _ => (order_set_status s order_id status, .ok)

/-- Error outcomes of the `/pay` and payment-photo handlers.  The source
replies with one message for "this order was not found OR it is not your
order"; the two cases are distinguished here by which guard fired. -/
inductive PayResult
  | badArgs
  | orderNotFound
  | notOrderOwner
  | ok
deriving Repr, DecidableEq

/-- `pay_command` (src/bot.py:523-553), after argument parsing: looks the
order up, rejects when it does not exist or `order.user_id` differs from
the requester, else overwrites method and ref, keeping the existing proof
file id (`o["payment_proof_file_id"] or ""` — identity, since the field
defaults to the empty string). -/
def pay_command (s : DB) (requester order_id : Int) (method ref : String) : DB × PayResult :=
  match order_get s order_id with
  | none => (s, .orderNotFound)
  | some o =>
      if o.user_id != requester then (s, .notOrderOwner)
      else (order_update_payment s order_id method ref o.payment_proof_file_id, .ok)

/-- `pay_photo` (src/bot.py:574-596): order id parsed from the caption
(none when the caption holds no digits); same existence/ownership guard
as `/pay`; keeps existing method/ref, substituting "UNKNOWN" /
"PHOTO_PROOF" when they are empty, and stores the photo file id as
proof. -/
def pay_photo (s : DB) (requester : Int) (caption_order_id : Option Int)
    (file_id : String) : DB × PayResult :=
  match caption_order_id with
  | none => (s, .badArgs)
  | some order_id =>
      match order_get s order_id with
      | none => (s, .orderNotFound)
      | some o =>
          if o.user_id != requester then (s, .notOrderOwner)
          else
            (order_update_payment s order_id
              (if o.payment_method == "" then "UNKNOWN" else o.payment_method)
              (if o.payment_ref == "" then "PHOTO_PROOF" else o.payment_ref)
              file_id, .ok)

/-- `customer_add_to_cart` (src/bot.py:395-404): refuses (leaves the
state unchanged, replying "not found") unless the product exists and
`is_active == 1`; otherwise `cart_add(user, pid, 1)`. -/
def customer_add_to_cart (s : DB) (user_id pid : Int) : DB :=
  match get_product s pid with
  | none => s
  | some p => if p.is_active != 1 then s else cart_add s user_id pid 1

/-- The field chosen in the admin edit conversation (`A_EF:name` etc.). -/
inductive EditField
  | name
  | price
  | description
  | photo
deriving Repr, DecidableEq

/-- `admin_edit_value` (src/bot.py:836-847), the UPDATE it issues on
`products`: one field of the picked product row is overwritten.  `value`
is the new text (name/description/photo file id), `price_value` the
parsed integer for the price field. -/
def admin_edit_value (s : DB) (pid : Int) (field : EditField)
    (value : String) (price_value : Int) : DB :=
  { s with products := s.products.map (fun p =>
      if p.id == pid then
        match field with
        | .price => { p with price := price_value }
        | .name => { p with name := value }
        | .description => { p with description := value }
        | .photo => { p with photo_file_id := value }
      else p) }

/-- `admin_del_pick` (src/bot.py:872-885): soft delete,
`UPDATE products SET is_active=0 WHERE id=?`. -/
def admin_del_pick (s : DB) (pid : Int) : DB :=
  { s with products := s.products.map (fun p =>
      if p.id == pid then { p with is_active := 0 } else p) }

/-- A catalog-admin edit: a field update or a soft delete. -/
inductive CatalogEdit
  | editValue (pid : Int) (field : EditField) (value : String) (price_value : Int)
  | deactivate (pid : Int)
deriving Repr, DecidableEq

/-- Apply one catalog edit. -/
def applyCatalogEdit (s : DB) : CatalogEdit → DB
  | .editValue pid field value price_value => admin_edit_value s pid field value price_value
  | .deactivate pid => admin_del_pick s pid

/-- Apply a sequence of catalog edits. -/
def applyCatalogEdits (s : DB) (es : List CatalogEdit) : DB :=
  es.foldl applyCatalogEdit s

/-- A customer cart operation as reachable from the UI: the add button
(`customer_add_to_cart`, quantity 1, guarded by existence+active) or the
remove button (`cart_remove`). -/
inductive CartOp
  | add (pid : Int)
  | remove (pid : Int)
deriving Repr, DecidableEq

/-- Apply one cart operation for the given user. -/
def applyCartOp (user_id : Int) (s : DB) : CartOp → DB
  | .add pid => customer_add_to_cart s user_id pid
  | .remove pid => cart_remove s user_id pid

/-- Apply a sequence of cart operations for the given user. -/
def applyCartOps (user_id : Int) (s : DB) (ops : List CartOp) : DB :=
  ops.foldl (applyCartOp user_id) s

/-- Python `str.strip()`: whitespace removed from both ends. -/
def pyStrip (t : String) : String :=
  ⟨((t.data.dropWhile Char.isWhitespace).reverse.dropWhile Char.isWhitespace).reverse⟩

/-- Length of the longest run of consecutive digit characters in the
text.  `re.search(r"\d{7,12}", text)` succeeds exactly when some run of
at least 7 consecutive digits exists (the 12 upper bound only limits the
match length, not whether a match exists). -/
def maxDigitRun (t : String) : Nat :=
  (t.data.foldl
    (fun (acc : Nat × Nat) c =>
      if c.isDigit then (max acc.1 (acc.2 + 1), acc.2 + 1) else (acc.1, 0))
    (0, 0)).1

/-- The phone check of `checkout_collect`:
`re.search(r"\d{7,12}", text)` is truthy. -/
def phoneSearchOk (t : String) : Bool :=
  decide (7 ≤ maxDigitRun t)

/-- The per-chat checkout conversation data (`context.user_data`):
the current step and the collected fields. -/
structure CheckoutData where
  step : Option String
  co_name : String
  co_phone : String
  co_address : String
deriving Repr, DecidableEq

/-- `checkout_collect` (src/bot.py:460-517): one incoming text message of
the checkout conversation.  Strips the text; on step "name" stores it
(no emptiness check) and advances; on step "phone" re-prompts (state and
conversation unchanged) unless the text contains 7 contiguous digits; on
step "address" stores and advances; on step "note" converts "-" to ""
and runs `create_order_from_cart`.  Returns the database, the updated
conversation data, and the (order_id, total) pair (0,0 when no order was
attempted). -/
def checkout_collect (s : DB) (ud : CheckoutData) (user_id : Int)
    (msg now : String) : DB × CheckoutData × Int × Int :=
  match ud.step with
  | none => (s, ud, 0, 0)
  | some st =>
      let text := pyStrip msg
      if st == "name" then
        (s, { ud with co_name := text, step := some "phone" }, 0, 0)
      else if st == "phone" then
        if !phoneSearchOk text then (s, ud, 0, 0)
        else (s, { ud with co_phone := text, step := some "address" }, 0, 0)
      else if st == "address" then
        (s, { ud with co_address := text, step := some "note" }, 0, 0)
      else if st == "note" then
        let note := if text == "-" then "" else text
        let r := create_order_from_cart s user_id ud.co_name ud.co_phone ud.co_address note now
        (r.1, { ud with step := none }, r.2.1, r.2.2)
      else (s, ud, 0, 0)

/-- Current catalog price of a product id (0 when absent; under the
closedness invariant below the lookup always succeeds). -/
def priceOf (s : DB) (pid : Int) : Int :=
  match s.products.find? (fun p => p.id == pid) with
  | some p => p.price
  | none => 0

/-- The spec's words for the cart total ("Σ(current unit_price × qty)
over remaining lines"): direct sum over the user's cart rows using the
current catalog price. -/
def specCartTotal (s : DB) (user_id : Int) : Int :=
  ((s.carts.filter (fun c => c.user_id == user_id)).map
    (fun c => priceOf s c.product_id * c.qty)).sum

/-- Every cart line of the user refers to a product present in the
catalog (products are soft-deleted only, so lines created through the
guarded add button keep this). -/
def cartClosed (s : DB) (user_id : Int) : Prop :=
  ∀ c ∈ s.carts, c.user_id = user_id →
    (s.products.find? (fun p => p.id == c.product_id)).isSome

/-- Frame relation for payment-evidence updates on order `order_id`:
every other table is untouched, every order keeps its position, identity,
status, customer details, total and creation time, and orders with a
different id are byte-for-byte unchanged. -/
def paymentFrame (s t : DB) (order_id : Int) : Prop :=
  t.products = s.products ∧ t.carts = s.carts ∧
  t.order_items = s.order_items ∧ t.next_order_id = s.next_order_id ∧
  List.Forall₂ (fun o o' =>
    o'.id = o.id ∧ o'.user_id = o.user_id ∧
    o'.customer_name = o.customer_name ∧ o'.phone = o.phone ∧
    o'.address = o.address ∧ o'.note = o.note ∧
    o'.total_amount = o.total_amount ∧ o'.status = o.status ∧
    o'.created_at = o.created_at ∧ (o.id ≠ order_id → o' = o))
    s.orders t.orders

/-- A user's cart rows survive filtering twice: removing the user's rows
and then keeping only the user's rows yields nothing. -/
lemma filter_user_of_clear (user_id : Int) (l : List CartLine) :
    (l.filter (fun c => !(c.user_id == user_id))).filter
      (fun c => c.user_id == user_id) = [] := by
  induction l with
  | nil => rfl
  | cons c cs ih =>
    by_cases h : c.user_id = user_id <;>
      simp [List.filter_cons, h, ih]

/-- When the user has no cart rows, the cart join is empty. -/
lemma cart_list_eq_nil (s : DB) (user_id : Int)
    (h : s.carts.filter (fun c => c.user_id == user_id) = []) :
    cart_list s user_id = [] := by
  unfold cart_list
  rw [h]
  rfl

/-- `order_update_payment` satisfies the payment frame relation. -/
lemma order_update_payment_frame (s : DB) (order_id : Int)
    (method ref proof_file_id : String) :
    paymentFrame s (order_update_payment s order_id method ref proof_file_id) order_id := by
  refine ⟨rfl, rfl, rfl, rfl, ?_⟩
  unfold order_update_payment
  simp only [DB.orders]
  induction s.orders with
  | nil => exact List.Forall₂.nil
  | cons o os ih =>
    refine List.Forall₂.cons ?_ ih
    by_cases h : o.id = order_id <;> simp [h]

/-- `find?` on a list mapped by an id-preserving function. -/
lemma find?_map_id_preserving {α : Type} (key : α → Int) (g : α → α)
    (hg : ∀ a, key (g a) = key a) (l : List α) (i : Int) :
    (l.map g).find? (fun a => key a == i)
      = (l.find? (fun a => key a == i)).map g := by
  rw [List.find?_map]
  have hfun : ((fun a => key a == i) ∘ g) = (fun a => key a == i) := by
    funext a
    simp [Function.comp, hg]
  rw [hfun]

/-- Concrete database for the C1 claim: a single order, id 1 of user 9,
already in the terminal status DONE. -/
def c1DB : DB :=
  ⟨[], [], [⟨1, 9, "N", "091234567", "Addr", "", 2500, "DONE", "", "", "", "t0"⟩], [], 2⟩

/-- C1 counterexample: order 1 is DONE (terminal), yet the operator
status handler succeeds and overwrites the status with CANCELED — the
call neither fails nor leaves the status unchanged, refuting the claim
that `set_status` on a terminal order always fails with
`OrderAlreadyTerminal`. -/
theorem c1_counterexample :
    (order_get c1DB 1).map Order.status = some "DONE" ∧
    (admin_order_status c1DB [7] 7 "CANCELED" 1).2 = StatusResult.ok ∧
    (order_get (admin_order_status c1DB [7] 7 "CANCELED" 1).1 1).map Order.status
      = some "CANCELED" := by
  decide

/-- C1 amended: `order_set_status` performs an unconditional UPDATE, so
for every operator (member of ADMIN_IDS) and every existing order —
whatever its current status, including the terminal DONE and CANCELED —
`admin_order_status` succeeds and overwrites the status with the
requested value; no `OrderAlreadyTerminal` check exists anywhere. -/
theorem c1_terminal_not_enforced (s : DB) (admin_ids : List Int) (actor : Int)
    (status : String) (order_id : Int) (o : Order)
    (hadmin : admin_ids.contains actor = true)
    (hget : order_get s order_id = some o) :
    (admin_order_status s admin_ids actor status order_id).2 = StatusResult.ok ∧
    order_get (admin_order_status s admin_ids actor status order_id).1 order_id
      = some { o with status := status } := by
  have hget' : s.orders.find? (fun a => a.id == order_id) = some o := hget
  have hpred : (o.id == order_id) = true := by
    have hp := List.find?_some hget'
    simpa using hp
  have hrw : order_get (order_set_status s order_id status) order_id
      = some { o with status := status } := by
    unfold order_get order_set_status
    rw [find?_map_id_preserving (fun x => x.id)
      (fun o => if o.id == order_id then { o with status := status } else o)
      (by intro a; by_cases h : a.id == order_id <;> simp [h]) s.orders order_id]
    rw [hget']
    have heq : o.id = order_id := by simpa using hpred
    simp [heq]
  unfold admin_order_status
  rw [hadmin, hget]
  exact ⟨rfl, hrw⟩

/-- C1 amended witness: operator 7 sets PACKING on the DONE order 1 of
`c1DB`; the call succeeds and the status becomes PACKING. -/
theorem c1_witness :
    (admin_order_status c1DB [7] 7 "PACKING" 1).2 = StatusResult.ok ∧
    order_get (admin_order_status c1DB [7] 7 "PACKING" 1).1 1
      = some ⟨1, 9, "N", "091234567", "Addr", "", 2500, "PACKING", "", "", "", "t0"⟩ :=
  c1_terminal_not_enforced c1DB [7] 7 "PACKING" 1
    ⟨1, 9, "N", "091234567", "Addr", "", 2500, "DONE", "", "", "", "t0"⟩
    (by decide) (by decide)

/-- C5: for a user with no cart rows, `create_order_from_cart` returns
the no-op result (order_id 0, total 0) and the database — orders and
order_items included — is completely unchanged. -/
theorem c5_empty_cart_checkout_noop (s : DB) (user_id : Int)
    (customer_name phone address note now : String)
    (h : s.carts.filter (fun c => c.user_id == user_id) = []) :
    create_order_from_cart s user_id customer_name phone address note now = (s, 0, 0) := by
  have hnil := cart_list_eq_nil s user_id h
  unfold create_order_from_cart
  rw [hnil]
  rfl

/-- C5 witness: in a database where only user 8 has a cart row, checkout
for user 9 is a no-op returning order_id 0. -/
theorem c5_witness :
    (DB.mk [⟨1, "A", 1000, "", "", 1, "t0"⟩] [⟨8, 1, 1⟩] [] [] 1).carts.filter
        (fun c => c.user_id == (9 : Int)) = [] ∧
    create_order_from_cart (DB.mk [⟨1, "A", 1000, "", "", 1, "t0"⟩] [⟨8, 1, 1⟩] [] [] 1)
        9 "N" "091234567" "Addr" "" "t1"
      = (DB.mk [⟨1, "A", 1000, "", "", 1, "t0"⟩] [⟨8, 1, 1⟩] [] [] 1, 0, 0) :=
  ⟨by decide,
   c5_empty_cart_checkout_noop (DB.mk [⟨1, "A", 1000, "", "", 1, "t0"⟩] [⟨8, 1, 1⟩] [] [] 1)
     9 "N" "091234567" "Addr" "" "t1" (by decide)⟩

/-- One catalog edit touches only the `products` table. -/
lemma applyCatalogEdit_frame (s : DB) (e : CatalogEdit) :
    (applyCatalogEdit s e).orders = s.orders ∧
    (applyCatalogEdit s e).order_items = s.order_items := by
  cases e <;> exact ⟨rfl, rfl⟩

/-- C7: any sequence of catalog edits (price, name, description or photo
updates, or soft deletes) leaves every order's stored line items
(`order_items`) and the whole `orders` table — hence every
`total_amount` — unchanged. -/
theorem c7_catalog_edits_preserve_orders (s : DB) (es : List CatalogEdit) (order_id : Int) :
    order_items (applyCatalogEdits s es) order_id = order_items s order_id ∧
    (applyCatalogEdits s es).orders = s.orders := by
  induction es generalizing s with
  | nil => exact ⟨rfl, rfl⟩
  | cons e rest ih =>
    have h1 := applyCatalogEdit_frame s e
    have h2 := ih (applyCatalogEdit s e)
    unfold applyCatalogEdits at h2 ⊢
    simp only [List.foldl_cons]
    refine ⟨?_, ?_⟩
    · rw [h2.1]
      unfold order_items
      rw [h1.2]
    · rw [h2.2, h1.1]

/-- Concrete database for the ownership claims: order 1 belongs to
user 9. -/
def c9DB : DB :=
  ⟨[], [], [⟨1, 9, "N", "091234567", "Addr", "", 2500, "WAIT_PAYMENT", "m0", "r0", "f0", "t0"⟩], [], 2⟩

/-- C9: when the order exists but its `user_id` differs from the
requester, both `/pay` and the payment-photo handler reject the request
(the not-your-order reply) and return the database unchanged, so the
payment fields are untouched. -/
theorem c9_not_owner_rejected (s : DB) (requester order_id : Int) (o : Order)
    (method ref file_id : String)
    (hget : order_get s order_id = some o)
    (hne : o.user_id ≠ requester) :
    pay_command s requester order_id method ref = (s, PayResult.notOrderOwner) ∧
    pay_photo s requester (some order_id) file_id = (s, PayResult.notOrderOwner) := by
  constructor <;> simp [pay_command, pay_photo, hget, hne]

/-- C9 witness: user 5 tries to submit payment and proof for order 1
owned by user 9; both calls are rejected and the database is unchanged. -/
theorem c9_witness :
    pay_command c9DB 5 1 "KBZPay" "123456" = (c9DB, PayResult.notOrderOwner) ∧
    pay_photo c9DB 5 (some 1) "file9" = (c9DB, PayResult.notOrderOwner) :=
  c9_not_owner_rejected c9DB 5 1
    ⟨1, 9, "N", "091234567", "Addr", "", 2500, "WAIT_PAYMENT", "m0", "r0", "f0", "t0"⟩
    "KBZPay" "123456" "file9" (by decide) (by decide)

/-- C8: whenever `/pay` or the payment-photo handler succeeds, only the
`payment_method`, `payment_ref` and `payment_proof_file_id` fields of the
targeted order may change: its status, identity, customer details, total
and creation time are preserved, every other order is byte-for-byte
unchanged, and no other table is touched. -/
theorem c8_payment_evidence_frame (s : DB) (requester order_id : Int)
    (method ref file_id : String) (t1 t2 : DB)
    (h1 : pay_command s requester order_id method ref = (t1, PayResult.ok))
    (h2 : pay_photo s requester (some order_id) file_id = (t2, PayResult.ok)) :
    paymentFrame s t1 order_id ∧ paymentFrame s t2 order_id := by
  unfold pay_command at h1
  unfold pay_photo at h2
  cases hg : order_get s order_id with
  | none =>
    simp [hg] at h1
  | some o =>
    by_cases how : o.user_id = requester
    · simp only [hg, how, bne_self_eq_false, Bool.false_eq_true, if_false,
        Prod.mk.injEq, and_true] at h1 h2
      rw [← h1, ← h2]
      exact ⟨order_update_payment_frame s order_id method ref o.payment_proof_file_id,
             order_update_payment_frame s order_id _ _ file_id⟩
    · simp [hg, how] at h1

/-- Concrete database for the C8 witness: order 1 of user 9 in
WAIT_PAYMENT with empty payment fields. -/
def c8DB : DB :=
  ⟨[], [], [⟨1, 9, "N", "091234567", "Addr", "", 2500, "WAIT_PAYMENT", "", "", "", "t0"⟩], [], 2⟩

/-- C8 witness: the owner (user 9) submits `/pay` evidence and then a
photo proof for order 1; both successful updates satisfy the payment
frame relation. -/
theorem c8_witness :
    paymentFrame c8DB (pay_command c8DB 9 1 "KBZPay" "123456").1 1 ∧
    paymentFrame c8DB (pay_photo c8DB 9 (some 1) "file1").1 1 :=
  c8_payment_evidence_frame c8DB 9 1 "KBZPay" "123456" "file1" _ _ rfl rfl

/-- Unfolded form of a successful checkout on a non-empty cart: the new
order row, the frozen item rows and the bumped AUTOINCREMENT counter,
followed by the cart clearing. -/
lemma create_order_from_cart_eq (s : DB) (user_id : Int)
    (customer_name phone address note now : String)
    (hne' : (cart_list s user_id).isEmpty = false) :
    create_order_from_cart s user_id customer_name phone address note now
      = (cart_clear
          { s with
            orders := s.orders ++
              [Order.mk s.next_order_id user_id customer_name phone address note
                (((cart_list s user_id).map (fun it => it.price * it.qty)).sum)
                "WAIT_PAYMENT" "" "" "" now],
            order_items := s.order_items ++ (cart_list s user_id).map (fun it =>
              OrderItem.mk s.next_order_id it.product_id it.name it.price it.qty),
            next_order_id := s.next_order_id + 1 } user_id,
         s.next_order_id,
         ((cart_list s user_id).map (fun it => it.price * it.qty)).sum) := by
  unfold create_order_from_cart create_order_txn
  simp only [hne', Bool.false_eq_true, if_false]

/-- The `order_items` view of a state whose item table is stale rows (none
with the new id) followed by the new order's rows: exactly the new rows,
reversed (ORDER BY rowid DESC). -/
lemma order_items_append_fresh (old its : List OrderItem) (oid : Int)
    (h1 : ∀ it ∈ old, it.order_id ≠ oid)
    (h2 : ∀ it ∈ its, it.order_id = oid)
    (s : DB) (hs : s.order_items = old ++ its) :
    order_items s oid = its.reverse := by
  unfold order_items
  rw [hs, List.filter_append]
  have e1 : old.filter (fun it => it.order_id == oid) = [] := by
    rw [List.filter_eq_nil_iff]
    intro it hit
    simp [h1 it hit]
  have e2 : its.filter (fun it => it.order_id == oid) = its := by
    rw [List.filter_eq_self]
    intro it hit
    simp [h2 it hit]
  rw [e1, e2, List.nil_append]

/-- C2: a successful checkout on a non-empty cart appends exactly one new
order, in status WAIT_PAYMENT, carrying the submitted customer details;
its frozen line items are exactly the pre-checkout cart join (product id,
name, price, qty at that instant); the returned total — the stored
`total_amount` — equals the sum of unit price times quantity over those
frozen line items; and the user's cart is empty afterwards.  The
freshness hypothesis says no stale `order_items` row already carries the
id the AUTOINCREMENT counter will assign. -/
theorem c2_checkout_postcondition (s : DB) (user_id : Int)
    (customer_name phone address note now : String) (t : DB) (oid total : Int)
    (hne : cart_list s user_id ≠ [])
    (hfresh : ∀ it ∈ s.order_items, it.order_id ≠ s.next_order_id)
    (heq : create_order_from_cart s user_id customer_name phone address note now
      = (t, oid, total)) :
    (∃ newo : Order,
      t.orders = s.orders ++ [newo] ∧
      newo.id = oid ∧ newo.user_id = user_id ∧
      newo.status = "WAIT_PAYMENT" ∧ newo.total_amount = total ∧
      newo.customer_name = customer_name ∧ newo.phone = phone ∧
      newo.address = address ∧ newo.note = note) ∧
    total = ((order_items t oid).map (fun it => it.price * it.qty)).sum ∧
    (order_items t oid).reverse
      = (cart_list s user_id).map
          (fun r => OrderItem.mk oid r.product_id r.name r.price r.qty) ∧
    t.carts.filter (fun c => c.user_id == user_id) = [] ∧
    cart_list t user_id = [] := by
  have hne' : (cart_list s user_id).isEmpty = false := by
    cases hl : cart_list s user_id with
    | nil => exact absurd hl hne
    | cons a l => rfl
  rw [create_order_from_cart_eq s user_id customer_name phone address note now hne'] at heq
  injection heq with ht hrest
  injection hrest with hoid htotal
  subst hoid htotal
  have htoi : t.order_items = s.order_items ++ (cart_list s user_id).map (fun it =>
      OrderItem.mk s.next_order_id it.product_id it.name it.price it.qty) := by
    rw [← ht]
    rfl
  have horders : t.orders = s.orders ++
      [Order.mk s.next_order_id user_id customer_name phone address note
        (((cart_list s user_id).map (fun it => it.price * it.qty)).sum)
        "WAIT_PAYMENT" "" "" "" now] := by
    rw [← ht]
    rfl
  have hcarts : t.carts = s.carts.filter (fun c => !(c.user_id == user_id)) := by
    rw [← ht]
    rfl
  have hoi : order_items t s.next_order_id
      = ((cart_list s user_id).map (fun it =>
          OrderItem.mk s.next_order_id it.product_id it.name it.price it.qty)).reverse := by
    refine order_items_append_fresh _ _ _ hfresh ?_ t htoi
    intro it hit
    obtain ⟨r, hr, hrfl⟩ := List.mem_map.mp hit
    subst hrfl
    rfl
  have hcarts2 : t.carts.filter (fun c => c.user_id == user_id) = [] := by
    rw [hcarts]
    exact filter_user_of_clear user_id s.carts
  refine ⟨⟨_, horders, rfl, rfl, rfl, rfl, rfl, rfl, rfl, rfl⟩, ?_, ?_, hcarts2, ?_⟩
  · rw [hoi, List.map_reverse, List.sum_reverse, List.map_map]
    congr 1
  · rw [hoi, List.reverse_reverse]
  · exact cart_list_eq_nil t user_id hcarts2

/-- Concrete database for the C2 witness, the spec's own scenario:
product A (price 1000) twice and product B (price 500) once in user 9's
cart. -/
def c2DB : DB :=
  ⟨[⟨1, "A", 1000, "", "", 1, "t0"⟩, ⟨2, "B", 500, "", "", 1, "t0"⟩],
   [⟨9, 1, 2⟩, ⟨9, 2, 1⟩], [], [], 1⟩

/-- C2 witness: checking out the A×2 + B×1 cart creates order 1 with
total 2500, frozen line items matching the cart join, and an empty cart
afterwards. -/
theorem c2_witness :
    cart_list c2DB 9 ≠ [] ∧
    (∀ it ∈ c2DB.order_items, it.order_id ≠ c2DB.next_order_id) ∧
    ((∃ newo : Order,
      (create_order_from_cart c2DB 9 "N" "091234567" "Addr" "" "t1").1.orders
        = c2DB.orders ++ [newo] ∧
      newo.id = 1 ∧ newo.user_id = 9 ∧
      newo.status = "WAIT_PAYMENT" ∧ newo.total_amount = 2500 ∧
      newo.customer_name = "N" ∧ newo.phone = "091234567" ∧
      newo.address = "Addr" ∧ newo.note = "") ∧
    (2500 : Int) = ((order_items (create_order_from_cart c2DB 9 "N" "091234567" "Addr" "" "t1").1 1).map
        (fun it => it.price * it.qty)).sum ∧
    (order_items (create_order_from_cart c2DB 9 "N" "091234567" "Addr" "" "t1").1 1).reverse
      = (cart_list c2DB 9).map (fun r => OrderItem.mk 1 r.product_id r.name r.price r.qty) ∧
    (create_order_from_cart c2DB 9 "N" "091234567" "Addr" "" "t1").1.carts.filter
        (fun c => c.user_id == (9 : Int)) = [] ∧
    cart_list (create_order_from_cart c2DB 9 "N" "091234567" "Addr" "" "t1").1 9 = []) :=
  ⟨by decide, by decide,
   c2_checkout_postcondition c2DB 9 "N" "091234567" "Addr" "" "t1"
     (create_order_from_cart c2DB 9 "N" "091234567" "Addr" "" "t1").1 1 2500
     (by decide) (by decide) rfl⟩

/-- Unfolded form of the order+items transaction on a non-empty cart. -/
lemma create_order_txn_eq (s : DB) (user_id : Int)
    (customer_name phone address note now : String)
    (hne' : (cart_list s user_id).isEmpty = false) :
    create_order_txn s user_id customer_name phone address note now
      = ({ s with
            orders := s.orders ++
              [Order.mk s.next_order_id user_id customer_name phone address note
                (((cart_list s user_id).map (fun it => it.price * it.qty)).sum)
                "WAIT_PAYMENT" "" "" "" now],
            order_items := s.order_items ++ (cart_list s user_id).map (fun it =>
              OrderItem.mk s.next_order_id it.product_id it.name it.price it.qty),
            next_order_id := s.next_order_id + 1 },
         s.next_order_id,
         ((cart_list s user_id).map (fun it => it.price * it.qty)).sum) := by
  unfold create_order_txn
  simp only [hne', Bool.false_eq_true, if_false]

/-- Concrete database for the C3 claim: product A (price 1000), user 9's
cart holding two units, no orders yet. -/
def c3DB : DB :=
  ⟨[⟨1, "A", 1000, "", "", 1, "t0"⟩], [⟨9, 1, 2⟩], [], [], 1⟩

/-- C3 counterexample: checkout runs as two separate transactions, so the
state committed by the first one (src/bot.py:222) is crash-observable: in
it order 1 exists, its line items exist, and user 9's cart rows are still
present — the order insertion and the cart clearing did not succeed or
fail together. -/
theorem c3_counterexample :
    ∃ t ∈ checkout_commit_states c3DB 9 "N" "091234567" "Addr" "" "t1",
      (order_get t 1).isSome ∧ order_items t 1 ≠ [] ∧
      t.carts.filter (fun c => c.user_id == (9 : Int)) ≠ [] := by
  decide

/-- C3 amended: only the weaker halves of the atomicity claim hold.  The
order and its line items are one transaction, so every crash-observable
state of checkout keeps the invariant that each order has a line item;
and the cart is cleared only by the second transaction, after the order
commit, so any observable state whose cart is cleared also contains the
new WAIT_PAYMENT order.  The crash point between the two commits,
exhibited by the counterexample, leaves the order committed with the cart
not yet cleared. -/
theorem c3_commit_state_guarantees (s : DB) (user_id : Int)
    (customer_name phone address note now : String)
    (hinv : ∀ o ∈ s.orders, ∃ it ∈ s.order_items, it.order_id = o.id)
    (hne : cart_list s user_id ≠ []) :
    ∀ t ∈ checkout_commit_states s user_id customer_name phone address note now,
      (∀ o ∈ t.orders, ∃ it ∈ t.order_items, it.order_id = o.id) ∧
      (t.carts.filter (fun c => c.user_id == user_id) = [] →
        ∃ o ∈ t.orders, o.id = s.next_order_id ∧ o.status = "WAIT_PAYMENT") := by
  have hne' : (cart_list s user_id).isEmpty = false := by
    cases hl : cart_list s user_id with
    | nil => exact absurd hl hne
    | cons a l => rfl
  have hfe : s.carts.filter (fun c => c.user_id == user_id) ≠ [] := by
    intro h
    exact hne (cart_list_eq_nil s user_id h)
  obtain ⟨r0, hr0⟩ : ∃ r, r ∈ cart_list s user_id := by
    cases hl : cart_list s user_id with
    | nil => exact absurd hl hne
    | cons a l => exact ⟨a, by simp [hl]⟩
  intro t ht
  simp only [checkout_commit_states, hne', Bool.false_eq_true, if_false,
    create_order_txn_eq s user_id customer_name phone address note now hne',
    List.mem_cons, List.not_mem_nil, or_false] at ht
  rcases ht with rfl | rfl | rfl
  · exact ⟨hinv, fun h => absurd h hfe⟩
  · constructor
    · intro o ho
      rcases List.mem_append.mp ho with hmem | hnew
      · obtain ⟨it, hit, hid⟩ := hinv o hmem
        exact ⟨it, List.mem_append_left _ hit, hid⟩
      · have ho' : o = Order.mk s.next_order_id user_id customer_name phone address note
            (((cart_list s user_id).map (fun it => it.price * it.qty)).sum)
            "WAIT_PAYMENT" "" "" "" now := by simpa using hnew
        refine ⟨OrderItem.mk s.next_order_id r0.product_id r0.name r0.price r0.qty,
          List.mem_append_right _ (List.mem_map.mpr ⟨r0, hr0, rfl⟩), ?_⟩
        rw [ho']
    · intro h
      exact absurd h hfe
  · constructor
    · intro o ho
      rcases List.mem_append.mp ho with hmem | hnew
      · obtain ⟨it, hit, hid⟩ := hinv o hmem
        exact ⟨it, List.mem_append_left _ hit, hid⟩
      · have ho' : o = Order.mk s.next_order_id user_id customer_name phone address note
            (((cart_list s user_id).map (fun it => it.price * it.qty)).sum)
            "WAIT_PAYMENT" "" "" "" now := by simpa using hnew
        refine ⟨OrderItem.mk s.next_order_id r0.product_id r0.name r0.price r0.qty,
          List.mem_append_right _ (List.mem_map.mpr ⟨r0, hr0, rfl⟩), ?_⟩
        rw [ho']
    · intro hcleared
      exact ⟨Order.mk s.next_order_id user_id customer_name phone address note
        (((cart_list s user_id).map (fun it => it.price * it.qty)).sum)
        "WAIT_PAYMENT" "" "" "" now, List.mem_append_right _ (by simp), rfl, rfl⟩

/-- C3 amended witness: the guarantees instantiated on the concrete
`c3DB` checkout. -/
theorem c3_witness :
    cart_list c3DB 9 ≠ [] ∧
    ∀ t ∈ checkout_commit_states c3DB 9 "N" "091234567" "Addr" "" "t1",
      (∀ o ∈ t.orders, ∃ it ∈ t.order_items, it.order_id = o.id) ∧
      (t.carts.filter (fun c => c.user_id == (9 : Int)) = [] →
        ∃ o ∈ t.orders, o.id = c3DB.next_order_id ∧ o.status = "WAIT_PAYMENT") :=
  ⟨by decide,
   c3_commit_state_guarantees c3DB 9 "N" "091234567" "Addr" "" "t1"
     (by decide) (by decide)⟩

/-- Concrete database for the C4 claim: product A (price 1000), one unit
in user 9's cart. -/
def c4DB : DB :=
  ⟨[⟨1, "A", 1000, "", "", 1, "t0"⟩], [⟨9, 1, 1⟩], [], [], 1⟩

/-- C4 counterexample: with a non-empty cart, an empty customer_name and
the phone "x" (which contains no digits at all, let alone 7 contiguous
ones), `create_order_from_cart` does not fail with any
InvalidCheckoutDetails error: it creates order 1 and stores the empty
name and the bogus phone on it. -/
theorem c4_counterexample :
    (create_order_from_cart c4DB 9 "" "x" "Addr" "" "t1").2.1 = 1 ∧
    (create_order_from_cart c4DB 9 "" "x" "Addr" "" "t1").1.orders.length = 1 ∧
    (order_get (create_order_from_cart c4DB 9 "" "x" "Addr" "" "t1").1 1).map
        Order.customer_name = some "" ∧
    (order_get (create_order_from_cart c4DB 9 "" "x" "Addr" "" "t1").1 1).map
        Order.phone = some "x" := by
  decide

/-- C4 amended: the order builder performs no validation of customer_name
or phone — on any non-empty cart it creates the order whatever they are
(first conjunct); the only phone check is in the conversation handler
`checkout_collect`, whose "phone" step re-prompts — leaving the database
and the conversation state unchanged, creating nothing and raising no
error — when the stripped text lacks 7 contiguous digits (second
conjunct); and the "name" step accepts any text including the empty
string (third conjunct).  No InvalidCheckoutDetails error exists. -/
theorem c4_no_validation_in_checkout (s : DB) (ud1 ud2 : CheckoutData) (user_id : Int)
    (customer_name phone address note now msg : String)
    (hne : cart_list s user_id ≠ [])
    (hstep1 : ud1.step = some "phone")
    (hph : phoneSearchOk (pyStrip msg) = false)
    (hstep2 : ud2.step = some "name") :
    ((create_order_from_cart s user_id customer_name phone address note now).1.orders.length
        = s.orders.length + 1 ∧
     (create_order_from_cart s user_id customer_name phone address note now).2.1
        = s.next_order_id) ∧
    checkout_collect s ud1 user_id msg now = (s, ud1, 0, 0) ∧
    checkout_collect s ud2 user_id msg now
      = (s, { ud2 with co_name := pyStrip msg, step := some "phone" }, 0, 0) := by
  have hne' : (cart_list s user_id).isEmpty = false := by
    cases hl : cart_list s user_id with
    | nil => exact absurd hl hne
    | cons a l => rfl
  refine ⟨?_, ?_, ?_⟩
  · rw [create_order_from_cart_eq s user_id customer_name phone address note now hne']
    exact ⟨by simp [cart_clear], rfl⟩
  · simp [checkout_collect, hstep1, hph]
  · simp [checkout_collect, hstep2]

/-- C4 amended witness: with the empty message, the "name" step stores
the empty customer name and advances; the "phone" step re-prompts; and
checkout with empty name and digit-free phone still creates an order. -/
theorem c4_witness :
    cart_list c4DB 9 ≠ [] ∧
    (((create_order_from_cart c4DB 9 "" "x" "Addr" "" "t1").1.orders.length
        = c4DB.orders.length + 1 ∧
      (create_order_from_cart c4DB 9 "" "x" "Addr" "" "t1").2.1 = c4DB.next_order_id) ∧
     checkout_collect c4DB ⟨some "phone", "", "", ""⟩ 9 "" "t1"
       = (c4DB, ⟨some "phone", "", "", ""⟩, 0, 0) ∧
     checkout_collect c4DB ⟨some "name", "", "", ""⟩ 9 "" "t1"
       = (c4DB, ⟨some "phone", "", "", ""⟩, 0, 0)) :=
  ⟨by decide,
   c4_no_validation_in_checkout c4DB ⟨some "phone", "", "", ""⟩ ⟨some "name", "", "", ""⟩
     9 "" "x" "Addr" "" "t1" "" (by decide) rfl (by decide) rfl⟩

/-- A cart operation never touches the catalog. -/
lemma applyCartOp_products (user_id : Int) (s : DB) (op : CartOp) :
    (applyCartOp user_id s op).products = s.products := by
  cases op with
  | add pid =>
    show (customer_add_to_cart s user_id pid).products = s.products
    unfold customer_add_to_cart
    cases get_product s pid with
    | none => rfl
    | some p =>
      by_cases ha : (p.is_active != 1) = true
      · simp [ha]
      · simp only [ha, if_false]
        unfold cart_add
        cases s.carts.find? (fun c => c.user_id == user_id && c.product_id == pid) <;> rfl
  | remove pid => rfl

/-- The guarded add button and the remove button keep every cart line of
the user pointing at an existing catalog row. -/
lemma cartClosed_applyCartOp (user_id : Int) (s : DB) (op : CartOp)
    (h : cartClosed s user_id) : cartClosed (applyCartOp user_id s op) user_id := by
  cases op with
  | remove pid =>
    intro c hc hcu
    exact h c (List.mem_of_mem_filter hc) hcu
  | add pid =>
    show cartClosed (customer_add_to_cart s user_id pid) user_id
    unfold customer_add_to_cart
    cases hg : get_product s pid with
    | none => exact h
    | some p =>
      have hg' : s.products.find? (fun q => q.id == pid) = some p := hg
      by_cases ha : (p.is_active != 1) = true
      · simp only [ha, if_true]
        exact h
      · simp only [ha, if_false]
        unfold cart_add
        cases hf : s.carts.find? (fun c => c.user_id == user_id && c.product_id == pid) with
        | some r =>
          intro c hc hcu
          obtain ⟨c0, hc0, hrfl⟩ := List.mem_map.mp hc
          by_cases hcc : (c0.user_id == user_id && c0.product_id == pid) = true
          · rw [← hrfl]
            simp only [hcc, if_true]
            exact h c0 hc0 (by simpa [hcc, ← hrfl] using hcu)
          · rw [← hrfl]
            simp only [hcc, if_false]
            exact h c0 hc0 (by simpa [hcc, ← hrfl] using hcu)
        | none =>
          intro c hc hcu
          rcases List.mem_append.mp hc with h1 | h2
          · exact h c h1 hcu
          · have hce : c = ⟨user_id, pid, 1⟩ := by simpa using h2
            subst hce
            show (s.products.find? (fun q => q.id == pid)).isSome
            rw [hg']
            rfl

/-- The closedness invariant is preserved by any sequence of cart
operations. -/
lemma cartClosed_applyCartOps (user_id : Int) (s : DB) (ops : List CartOp)
    (h : cartClosed s user_id) : cartClosed (applyCartOps user_id s ops) user_id := by
  induction ops generalizing s with
  | nil => exact h
  | cons op rest ih => exact ih (applyCartOp user_id s op) (cartClosed_applyCartOp user_id s op h)

/-- Sum of price×qty over the cart join equals the direct sum over cart
lines at current catalog prices, provided every line's product exists. -/
lemma join_map_sum (s : DB) (l : List CartLine)
    (hl : ∀ c ∈ l, (s.products.find? (fun p => p.id == c.product_id)).isSome) :
    ((l.filterMap (fun c =>
        (s.products.find? (fun p => p.id == c.product_id)).map (fun p =>
          CartRow.mk c.product_id c.qty p.name p.price))).map
      (fun it => it.price * it.qty)).sum
    = (l.map (fun c => priceOf s c.product_id * c.qty)).sum := by
  induction l with
  | nil => rfl
  | cons c cs ih =>
    obtain ⟨p, hp⟩ := Option.isSome_iff_exists.mp (hl c (by simp))
    have ihh := ih (fun c hc => hl c (List.mem_cons_of_mem _ hc))
    simp only [List.filterMap_cons, hp, List.map_cons, List.sum_cons,
      Option.map_some']
    rw [ihh]
    unfold priceOf
    rw [hp]

/-- The implemented `cart_total` agrees with the specified sum whenever
the cart is closed under the catalog. -/
lemma cart_total_eq_spec (s : DB) (user_id : Int) (h : cartClosed s user_id) :
    cart_total s user_id = specCartTotal s user_id := by
  have hl : ∀ c ∈ s.carts.filter (fun c => c.user_id == user_id),
      (s.products.find? (fun p => p.id == c.product_id)).isSome := by
    intro c hc
    have hm := List.mem_filter.mp hc
    exact h c hm.1 (by simpa using hm.2)
  have e1 : cart_total s user_id
      = (((s.carts.filter (fun c => c.user_id == user_id)).filterMap (fun c =>
          (s.products.find? (fun p => p.id == c.product_id)).map (fun p =>
            CartRow.mk c.product_id c.qty p.name p.price))).map
          (fun it => it.price * it.qty)).sum := by
    unfold cart_total cart_list
    exact ((List.perm_insertionSort _ _).map _).sum_eq
  rw [e1]
  exact join_map_sum s _ hl

/-- C6: after any sequence of cart add/remove operations (the guarded add
button and the remove button), `cart_total` equals the specified
Σ(current catalog unit_price × qty) over the remaining cart lines — exact
integer arithmetic, no rounding.  The hypothesis says the starting cart
only references existing catalog rows (trivially true of the empty cart);
the operations preserve it because products are never physically
deleted. -/
theorem c6_cart_total_correct (s : DB) (user_id : Int) (ops : List CartOp)
    (h : cartClosed s user_id) :
    cart_total (applyCartOps user_id s ops) user_id
      = specCartTotal (applyCartOps user_id s ops) user_id :=
  cart_total_eq_spec _ _ (cartClosed_applyCartOps user_id s ops h)

/-- Concrete database for the C6 witness: products A (1000) and B (500),
user 9 starting from an empty cart. -/
def c6DB : DB :=
  ⟨[⟨1, "A", 1000, "", "", 1, "t0"⟩, ⟨2, "B", 500, "", "", 1, "t0"⟩], [], [], [], 1⟩

/-- C6 witness: adding A twice, adding B, removing B and attempting a
nonexistent product 3 leaves a cart whose implemented total equals the
specified sum (2000). -/
theorem c6_witness :
    cartClosed c6DB 9 ∧
    cart_total (applyCartOps 9 c6DB
        [CartOp.add 1, CartOp.add 1, CartOp.add 2, CartOp.remove 2, CartOp.add 3]) 9
      = specCartTotal (applyCartOps 9 c6DB
          [CartOp.add 1, CartOp.add 1, CartOp.add 2, CartOp.remove 2, CartOp.add 3]) 9 :=
  ⟨by unfold cartClosed; decide,
   c6_cart_total_correct c6DB 9
     [CartOp.add 1, CartOp.add 1, CartOp.add 2, CartOp.remove 2, CartOp.add 3]
     (by unfold cartClosed; decide)⟩

/-- C10: soft-deleting a product that is already in a user's cart changes
neither the cart join nor the cart total (the join has no `is_active`
filter — the line stays, priced at the current catalog price); checkout
still freezes the deactivated product into the new order's line items;
yet `customer_add_to_cart` now refuses to add that product for anyone,
leaving the state unchanged. -/
theorem c10_inactive_product_stays_in_cart (s : DB)
    (user_id user_id2 pid qty : Int) (p : Product)
    (customer_name phone address note now : String)
    (hp : s.products.find? (fun q => q.id == pid) = some p)
    (hc : (⟨user_id, pid, qty⟩ : CartLine) ∈ s.carts) :
    cart_list (admin_del_pick s pid) user_id = cart_list s user_id ∧
    cart_total (admin_del_pick s pid) user_id = cart_total s user_id ∧
    (∃ row ∈ cart_list (admin_del_pick s pid) user_id,
      row.product_id = pid ∧ row.qty = qty ∧ row.price = p.price) ∧
    (∃ it ∈ (create_order_from_cart (admin_del_pick s pid) user_id
        customer_name phone address note now).1.order_items,
      it.product_id = pid ∧ it.price = p.price ∧ it.qty = qty) ∧
    customer_add_to_cart (admin_del_pick s pid) user_id2 pid = admin_del_pick s pid := by
  have hpid : (p.id == pid) = true := by
    have hs := List.find?_some hp
    simpa using hs
  have hfind : ∀ i : Int, (admin_del_pick s pid).products.find? (fun q => q.id == i)
      = (s.products.find? (fun q => q.id == i)).map
          (fun q => if q.id == pid then { q with is_active := 0 } else q) := by
    intro i
    show (s.products.map (fun q =>
        if q.id == pid then { q with is_active := 0 } else q)).find? (fun q => q.id == i) = _
    exact find?_map_id_preserving (fun q => q.id)
      (fun q => if q.id == pid then { q with is_active := 0 } else q)
      (by intro a; by_cases h : a.id = pid <;> simp [h]) s.products i
  have hfn : ∀ c : CartLine,
      ((admin_del_pick s pid).products.find? (fun q => q.id == c.product_id)).map (fun q =>
        CartRow.mk c.product_id c.qty q.name q.price)
    = (s.products.find? (fun q => q.id == c.product_id)).map (fun q =>
        CartRow.mk c.product_id c.qty q.name q.price) := by
    intro c
    rw [hfind c.product_id]
    cases s.products.find? (fun q => q.id == c.product_id) with
    | none => rfl
    | some q => by_cases hq : q.id = pid <;> simp [hq]
  have h1 : cart_list (admin_del_pick s pid) user_id = cart_list s user_id := by
    unfold cart_list
    congr 1
    show ((admin_del_pick s pid).carts.filter (fun c => c.user_id == user_id)).filterMap _
        = (s.carts.filter (fun c => c.user_id == user_id)).filterMap _
    have hcarts : (admin_del_pick s pid).carts = s.carts := rfl
    rw [hcarts]
    induction s.carts.filter (fun c => c.user_id == user_id) with
    | nil => rfl
    | cons c cs ih => simp only [List.filterMap_cons, hfn c, ih]
  have hrow : CartRow.mk pid qty p.name p.price ∈ cart_list (admin_del_pick s pid) user_id := by
    rw [h1]
    unfold cart_list
    rw [(List.perm_insertionSort _ _).mem_iff]
    refine List.mem_filterMap.mpr ⟨⟨user_id, pid, qty⟩, List.mem_filter.mpr ⟨hc, by simp⟩, ?_⟩
    rw [hp]
    rfl
  refine ⟨h1, ?_, ⟨CartRow.mk pid qty p.name p.price, hrow, rfl, rfl, rfl⟩, ?_, ?_⟩
  · unfold cart_total
    rw [h1]
  · have hne : cart_list (admin_del_pick s pid) user_id ≠ [] := by
      intro hnil
      rw [hnil] at hrow
      exact (List.not_mem_nil _) hrow
    have hne' : (cart_list (admin_del_pick s pid) user_id).isEmpty = false := by
      cases hl : cart_list (admin_del_pick s pid) user_id with
      | nil => exact absurd hl hne
      | cons a l => rfl
    rw [create_order_from_cart_eq (admin_del_pick s pid) user_id
      customer_name phone address note now hne']
    exact ⟨OrderItem.mk (admin_del_pick s pid).next_order_id pid p.name p.price qty,
      List.mem_append_right _
        (List.mem_map.mpr ⟨CartRow.mk pid qty p.name p.price, hrow, rfl⟩),
      rfl, rfl, rfl⟩
  · have hgp : get_product (admin_del_pick s pid) pid = some { p with is_active := 0 } := by
      show (admin_del_pick s pid).products.find? (fun q => q.id == pid) = _
      rw [hfind pid, hp]
      have hpe : p.id = pid := by simpa using hpid
      simp [hpe]
    unfold customer_add_to_cart
    rw [hgp]
    rfl

/-- Concrete database for the C10 witness: active product A (price 1000)
with two units already in user 9's cart. -/
def c10DB : DB :=
  ⟨[⟨1, "A", 1000, "", "", 1, "t0"⟩], [⟨9, 1, 2⟩], [], [], 1⟩

/-- C10 witness: soft-deleting product 1 keeps it in user 9's cart at
price 1000, checkout still freezes it, and re-adding it is refused. -/
theorem c10_witness :
    c10DB.products.find? (fun q => q.id == (1 : Int))
      = some ⟨1, "A", 1000, "", "", 1, "t0"⟩ ∧
    (CartLine.mk 9 1 2) ∈ c10DB.carts ∧
    (cart_list (admin_del_pick c10DB 1) 9 = cart_list c10DB 9 ∧
     cart_total (admin_del_pick c10DB 1) 9 = cart_total c10DB 9 ∧
     (∃ row ∈ cart_list (admin_del_pick c10DB 1) 9,
       row.product_id = 1 ∧ row.qty = 2 ∧ row.price = (1000 : Int)) ∧
     (∃ it ∈ (create_order_from_cart (admin_del_pick c10DB 1) 9
         "N" "091234567" "Addr" "" "t1").1.order_items,
       it.product_id = 1 ∧ it.price = (1000 : Int) ∧ it.qty = 2) ∧
     customer_add_to_cart (admin_del_pick c10DB 1) 9 1 = admin_del_pick c10DB 1) :=
  ⟨by decide, by decide,
   c10_inactive_product_stays_in_cart c10DB 9 9 1 2 ⟨1, "A", 1000, "", "", 1, "t0"⟩
     "N" "091234567" "Addr" "" "t1" (by decide) (by decide)⟩

end ShopBot
